import Mathlib

/-!
Verification of the ep repository's core subsystems against its design
specification.

The definitions below are shallow embeddings of:
- the SQL job submit/poll/results handler `POST` in
  `src/app/api/dremio/sql/route.ts` (polling loop, timeout ceiling,
  terminal-state dispatch);
- `executeQuery` and the result display state of the SQL editor component;
- the catalog tree helpers `updateItemInTree`, `handleToggle`,
  `loadChildren` and the selection aggregation `handleToggleSelection` /
  `loadContainerDatasets` of the Dremio catalog browser component;
- `buildDataContext` in `src/components/chat-sidebar.tsx`.

TypeScript `undefined`-able booleans are modelled as `Bool` (JS truthiness
maps `undefined` to `false`); optional object/array fields are modelled as
`Option`.  Asynchronous flows are modelled as explicit event sequences: each
dispatched fetch is recorded together with the data its completion callback
closed over, and a completion event applies the corresponding merge exactly
as the source's callback does.
-/

namespace EP

/-! ### Query job executor: `src/app/api/dremio/sql/route.ts` -/

/-- The remote job states that keep the polling loop running
(`while (jobStatus === "RUNNING" || jobStatus === "STARTING" || jobStatus === "ENQUEUED")`). -/
def isNonTerminal (jobStatus : String) : Bool :=
  jobStatus == "RUNNING" || jobStatus == "STARTING" || jobStatus == "ENQUEUED"

/-- Result of the polling loop.  `statusCalls` counts the job-status fetches
issued: in the source, each loop iteration increments `attempts` and then
performs exactly one status fetch, so the final value of `attempts` is the
number of status calls made. -/
inductive PollOutcome where
  | timedOut (statusCalls : Nat)
  | terminal (jobState : String) (statusCalls : Nat)
deriving DecidableEq

/-- `const maxAttempts = 60 // 60 seconds max wait`. -/
def maxAttempts : Nat := 60

/-- The polling loop of the route handler.  `status n` is the `jobState`
returned by the (n+1)-st status fetch.  `remaining` is structural fuel kept
equal to `maxAttempts - attempts` by `pollDremio`; the loop's own bound check
`attempts >= maxAttempts` is the explicit inner test, so the fuel-exhausted
branch is unreachable from `pollDremio` and only serves termination. -/
def pollLoop (status : Nat → String) : String → Nat → Nat → PollOutcome
  | jobStatus, attempts, remaining =>
    if isNonTerminal jobStatus then
      if maxAttempts ≤ attempts then PollOutcome.timedOut attempts
      else
        match remaining with
        | 0 => PollOutcome.timedOut attempts
        | r + 1 => pollLoop status (status attempts) (attempts + 1) r
    else PollOutcome.terminal jobStatus attempts

/-- The poll phase as entered by `POST`: `let jobStatus = "RUNNING"; let attempts = 0`. -/
def pollDremio (status : Nat → String) : PollOutcome :=
  pollLoop status "RUNNING" 0 maxAttempts

/-- What the route does after the polling loop ends (or times out).
`results offset limit` stands for the success path that issues
`GET /job/jobId/results?offset=0&limit=500` and returns its page with
HTTP 200; `queryFailed` is the 400 response built for `FAILED`/`CANCELED`;
`timeout408` is the 408 `"Query timeout - job still running"` response. -/
inductive RouteOutcome where
  | timeout408
  | queryFailed (jobState : String)
  | results (offset limit : Nat)
deriving DecidableEq

/-- Terminal-state dispatch after the loop:
`if (jobStatus === "FAILED" || jobStatus === "CANCELED")` builds the error
response, every other terminal state falls through to the results fetch
with `offset=0&limit=500`. -/
def dispatchTerminal (jobStatus : String) : RouteOutcome :=
  if jobStatus == "FAILED" || jobStatus == "CANCELED" then
    RouteOutcome.queryFailed jobStatus
  else
    RouteOutcome.results 0 500

/-- The route's poll-then-dispatch pipeline. -/
def sqlRoutePoll (status : Nat → String) : RouteOutcome :=
  match pollDremio status with
  | PollOutcome.timedOut _ => RouteOutcome.timeout408
  | PollOutcome.terminal s _ => dispatchTerminal s

/-! ### SQL editor client: `executeQuery` and the displayed result state

`executeQuery` runs `setIsExecuting(true); setResult(null)`, awaits a single
fetch of `/api/dremio/sql` (the route above), then applies `setResult(data)`
(or an error-shaped result) and `setIsExecuting(false)` in `finally`.
There is no generation token: every completion applies `setResult`
unconditionally.  The Run button is disabled while `isExecuting`, but the
Ctrl/Cmd+Enter handler calls `executeQuery()` without checking
`isExecuting`, so a second query can be submitted while the first is still
in flight. -/

/-- The displayed `QueryResult` value (fields irrelevant to sequencing are
collapsed: `error` holds the error message when the response was not ok). -/
structure QueryResultShape where
  jobId : String
  rowCount : Nat
  error : Option String
deriving DecidableEq

/-- The component state relevant to query display. -/
structure SqlEditorState where
  isExecuting : Bool
  result : Option QueryResultShape
deriving DecidableEq

def initialEditorState : SqlEditorState :=
  { isExecuting := false, result := none }

/-- Observable state transitions of `executeQuery`: `start` is the
synchronous prefix (`setIsExecuting(true); setResult(null)`); `complete d`
is the continuation applied when that invocation's fetch settles
(`setResult(d)`, then `setIsExecuting(false)` in `finally`). -/
inductive EditorEvent where
  | start
  | complete (data : QueryResultShape)
deriving DecidableEq

def editorStep (s : SqlEditorState) (e : EditorEvent) : SqlEditorState :=
  match e with
  | EditorEvent.start => { s with isExecuting := true, result := none }
  | EditorEvent.complete data => { isExecuting := false, result := some data }

def runEditor (events : List EditorEvent) : SqlEditorState :=
  events.foldl editorStep initialEditorState

/-! ### Catalog tree: `CatalogItem`, `updateItemInTree`, `handleToggle` -/

/-- A field's type descriptor (`DatasetField["type"]`; the unused recursive
`subSchema` member is carried by no code path and is omitted). -/
structure FieldType where
  name : String
  precision : Option Nat
  scale : Option Nat
deriving DecidableEq

/-- A column/field of a dataset. -/
structure DatasetField where
  name : String
  type : FieldType
deriving DecidableEq

/-- `formatColumnType`: `name`, `name(precision)` or `name(precision,scale)`. -/
def formatColumnType (t : FieldType) : String :=
  match t.precision with
  | none => t.name
  | some p =>
    match t.scale with
    | none => t.name ++ "(" ++ toString p ++ ")"
    | some s => t.name ++ "(" ++ toString p ++ "," ++ toString s ++ ")"

/-- A catalog tree node (`CatalogItem` in the component).  Constructor
argument order: `id`, `path`, `type`, `containerType`, `datasetType`,
`children`, `fields`, `isLoading`, `isLoaded`. -/
inductive CatalogItem where
  | mk (id : String) (path : List String) (type : String)
       (containerType : Option String) (datasetType : Option String)
       (children : Option (List CatalogItem))
       (fields : Option (List DatasetField))
       (isLoading : Bool) (isLoaded : Bool)

def CatalogItem.id : CatalogItem → String
  | CatalogItem.mk i _ _ _ _ _ _ _ _ => i

def CatalogItem.path : CatalogItem → List String
  | CatalogItem.mk _ p _ _ _ _ _ _ _ => p

def CatalogItem.type : CatalogItem → String
  | CatalogItem.mk _ _ t _ _ _ _ _ _ => t

def CatalogItem.containerType : CatalogItem → Option String
  | CatalogItem.mk _ _ _ ct _ _ _ _ _ => ct

def CatalogItem.datasetType : CatalogItem → Option String
  | CatalogItem.mk _ _ _ _ dt _ _ _ _ => dt

def CatalogItem.children : CatalogItem → Option (List CatalogItem)
  | CatalogItem.mk _ _ _ _ _ ch _ _ _ => ch

def CatalogItem.fields : CatalogItem → Option (List DatasetField)
  | CatalogItem.mk _ _ _ _ _ _ fs _ _ => fs

def CatalogItem.isLoading : CatalogItem → Bool
  | CatalogItem.mk _ _ _ _ _ _ _ lg _ => lg

def CatalogItem.isLoaded : CatalogItem → Bool
  | CatalogItem.mk _ _ _ _ _ _ _ _ ld => ld

/-- A `Partial<CatalogItem>` update object as passed to `updateItemInTree`;
`some` means the property is present in the update. -/
structure ItemUpdates where
  isLoading : Option Bool
  isLoaded : Option Bool
  children : Option (List CatalogItem)
  fields : Option (List DatasetField)

/-- The spread `{ ...item, ...updates }`: properties present in the update
object replace the item's. -/
def applyUpdates : CatalogItem → ItemUpdates → CatalogItem
  | CatalogItem.mk i p t ct dt ch fs lg ld, u =>
      CatalogItem.mk i p t ct dt
        (match u.children with | some cs => some cs | none => ch)
        (match u.fields with | some f => some f | none => fs)
        (match u.isLoading with | some b => b | none => lg)
        (match u.isLoaded with | some b => b | none => ld)

mutual

/-- One element of the `items.map` body of `updateItemInTree`: replace the
node whose `id` matches, otherwise recurse into its `children` when present
(in JS an empty `children` array is truthy, so presence means `some`). -/
def updateItemOne (id : String) (u : ItemUpdates) : CatalogItem → CatalogItem
  | CatalogItem.mk i p t ct dt none fs lg ld =>
      if i == id then applyUpdates (CatalogItem.mk i p t ct dt none fs lg ld) u
      else CatalogItem.mk i p t ct dt none fs lg ld
  | CatalogItem.mk i p t ct dt (some cs) fs lg ld =>
      if i == id then applyUpdates (CatalogItem.mk i p t ct dt (some cs) fs lg ld) u
      else CatalogItem.mk i p t ct dt (some (updateItemInTree cs id u)) fs lg ld

/-- The copy-on-write tree rewrite `updateItemInTree(items, id, updates)`. -/
def updateItemInTree (items : List CatalogItem) (id : String) (u : ItemUpdates) :
    List CatalogItem :=
  match items with
  | [] => []
  | x :: xs => updateItemOne id u x :: updateItemInTree xs id u

end

mutual

/-- Whether a node with the given `id` occurs in this item's subtree. -/
def itemContainsId (id : String) : CatalogItem → Bool
  | CatalogItem.mk i _ _ _ _ none _ _ _ => i == id
  | CatalogItem.mk i _ _ _ _ (some cs) _ _ _ => i == id || treeContainsId id cs

/-- Whether a node with the given `id` occurs anywhere in the forest. -/
def treeContainsId (id : String) : List CatalogItem → Bool
  | [] => false
  | x :: xs => itemContainsId id x || treeContainsId id xs

end

/-- `{ isLoading: true }` — the synchronous prefix of `loadChildren` /
`loadDatasetDetails`. -/
def loadingUpdate : ItemUpdates :=
  { isLoading := some true, isLoaded := none, children := none, fields := none }

/-- `{ children, isLoaded: true, isLoading: false }` — successful completion
of `loadChildren`. -/
def childrenLoadedUpdate (children : List CatalogItem) : ItemUpdates :=
  { isLoading := some false, isLoaded := some true, children := some children,
    fields := none }

/-- `{ isLoading: false, isLoaded: true, children: [] }` — the catch branch
of `loadChildren` (fail soft with empty children). -/
def childrenFailedUpdate : ItemUpdates :=
  { isLoading := some false, isLoaded := some true, children := some [],
    fields := none }

/-- `{ fields, isLoaded: true, isLoading: false }` — successful completion
of `loadDatasetDetails`. -/
def fieldsLoadedUpdate (fields : List DatasetField) : ItemUpdates :=
  { isLoading := some false, isLoaded := some true, children := none,
    fields := some fields }

/-- `handleToggle` combined with the synchronous prefix of the dispatched
loader: the expand guard is `newExpanded && !item.isLoaded && !item.isLoading`
with `newExpanded = !isExpanded`; when it holds, the loader immediately marks
the node loading in the tree and issues the remote fetch (returned `Bool`).
Otherwise neither loader runs and the tree is untouched. -/
def handleToggle (catalog : List CatalogItem) (item : CatalogItem)
    (isExpanded : Bool) : List CatalogItem × Bool :=
  let newExpanded := !isExpanded
  if newExpanded && !item.isLoaded && !item.isLoading then
    (updateItemInTree catalog item.id loadingUpdate, true)
  else
    (catalog, false)

/-! ### Selection aggregator: `handleToggleSelection`, `loadContainerDatasets`

The page owning the selection passes `onSelectionChange = (items) =>
setSelectedCatalogItems(items)`: every call replaces the whole selection
with the array it receives.  `handleToggleSelection` captures `newItems`
(the selection right after insertion) in each async continuation and, on
completion, calls `onSelectionChange(newItems.map(...))`; the continuation
therefore overwrites the current selection with a function of that captured
snapshot.  A `PendingResolution` records exactly what such a continuation
closed over. -/

/-- `SelectedColumn`. -/
structure SelectedColumn where
  name : String
  type : String
deriving DecidableEq

/-- An element of `childDatasets`. -/
structure ChildDataset where
  path : String
  columns : List SelectedColumn
deriving DecidableEq

/-- `SelectedCatalogItem`. -/
structure SelectedCatalogItem where
  id : String
  path : String
  type : String
  containerType : Option String
  datasetType : Option String
  columns : List SelectedColumn
  columnsLoaded : Bool
  columnsLoading : Bool
  childDatasets : List ChildDataset
  childDatasetsLoaded : Bool
  childDatasetsLoading : Bool
deriving DecidableEq

/-- `item.path.join(".")`. -/
def pathJoin (segments : List String) : String :=
  String.intercalate "." segments

/-- The `newItem` literal built by `handleToggleSelection` when the path is
not yet selected. -/
def newSelectedItem (item : CatalogItem) : SelectedCatalogItem :=
  let isDataset := item.type == "DATASET"
  let isContainer := item.type == "CONTAINER"
  { id := item.id
    path := pathJoin item.path
    type := if isDataset then "DATASET" else "CONTAINER"
    containerType := item.containerType
    datasetType := item.datasetType
    columns := []
    columnsLoaded := false
    columnsLoading := isDataset
    childDatasets := []
    childDatasetsLoaded := false
    childDatasetsLoading := isContainer }

/-- `selectedItemsMap.has(itemPath)` (the map is keyed by `path`). -/
def pathSelected (sel : List SelectedCatalogItem) (p : String) : Bool :=
  sel.any fun i => i.path == p

/-- What a dispatched async resolution closed over: the item's path, whether
it is the dataset branch (column fetch) or the container branch
(`loadContainerDatasets`), and the `newItems` array captured at dispatch. -/
structure PendingResolution where
  itemPath : String
  isDataset : Bool
  snapshot : List SelectedCatalogItem
deriving DecidableEq

/-- The aggregator state: the current selection plus the in-flight
resolutions. -/
structure SelectionState where
  selected : List SelectedCatalogItem
  pending : List PendingResolution
deriving DecidableEq

def initialSelection : SelectionState :=
  { selected := [], pending := [] }

/-- The synchronous part of `handleToggleSelection`: remove when the path is
already selected (`selectedItems.filter(i => i.path !== itemPath)`),
otherwise append the fresh `newItem` and dispatch the async resolution for
datasets and containers (other kinds get no fetch). -/
def handleToggleSelection (st : SelectionState) (item : CatalogItem) :
    SelectionState :=
  let itemPath := pathJoin item.path
  if pathSelected st.selected itemPath then
    { st with selected := st.selected.filter fun i => !(i.path == itemPath) }
  else
    let isDataset := item.type == "DATASET"
    let isContainer := item.type == "CONTAINER"
    let newItems := st.selected ++ [newSelectedItem item]
    if isDataset || isContainer then
      { selected := newItems
        pending := st.pending ++
          [{ itemPath := itemPath, isDataset := isDataset, snapshot := newItems }] }
    else
      { selected := newItems, pending := st.pending }

/-- The dataset success merge: `newItems.map(i => i.path === itemPath ?
{ ...i, columns, columnsLoaded: true, columnsLoading: false } : i)`. -/
def mergeColumnsOk (snapshot : List SelectedCatalogItem) (itemPath : String)
    (columns : List SelectedColumn) : List SelectedCatalogItem :=
  snapshot.map fun i =>
    if i.path == itemPath then
      { i with columns := columns, columnsLoaded := true, columnsLoading := false }
    else i

/-- The dataset no-fields / catch merge: flags only. -/
def mergeColumnsFail (snapshot : List SelectedCatalogItem) (itemPath : String) :
    List SelectedCatalogItem :=
  snapshot.map fun i =>
    if i.path == itemPath then
      { i with columnsLoaded := true, columnsLoading := false }
    else i

/-- The container success merge of `loadContainerDatasets`. -/
def mergeChildDatasetsOk (snapshot : List SelectedCatalogItem) (itemPath : String)
    (childDatasets : List ChildDataset) : List SelectedCatalogItem :=
  snapshot.map fun i =>
    if i.path == itemPath then
      { i with childDatasets := childDatasets, childDatasetsLoaded := true,
               childDatasetsLoading := false }
    else i

/-- The container no-children / catch merge of `loadContainerDatasets`:
flags only. -/
def mergeChildDatasetsFail (snapshot : List SelectedCatalogItem)
    (itemPath : String) : List SelectedCatalogItem :=
  snapshot.map fun i =>
    if i.path == itemPath then
      { i with childDatasetsLoaded := true, childDatasetsLoading := false }
    else i

/-- Events on the selection state.  `resolveOk n fields childDatasets`
settles the n-th in-flight resolution successfully (the dataset branch maps
the fetched `fields` through `formatColumnType`, the container branch
receives its accumulated `childDatasets`); `resolveFail n` settles it via
the no-data/catch branch.  Either way the continuation runs on the snapshot
it captured at dispatch and hands the mapped array to `onSelectionChange`,
which replaces the selection. -/
inductive SelEvent where
  | toggle (item : CatalogItem)
  | clear
  | resolveOk (n : Nat) (fields : List DatasetField) (childDatasets : List ChildDataset)
  | resolveFail (n : Nat)

def selStep (st : SelectionState) (e : SelEvent) : SelectionState :=
  match e with
  | SelEvent.toggle item => handleToggleSelection st item
  | SelEvent.clear => { st with selected := [] }
  | SelEvent.resolveOk n fields cds =>
    match st.pending[n]? with
    | some pr =>
      { selected :=
          if pr.isDataset then
            mergeColumnsOk pr.snapshot pr.itemPath
              (fields.map fun f => { name := f.name, type := formatColumnType f.type })
          else
            mergeChildDatasetsOk pr.snapshot pr.itemPath cds
        pending := st.pending.eraseIdx n }
    | none => st
  | SelEvent.resolveFail n =>
    match st.pending[n]? with
    | some pr =>
      { selected :=
          if pr.isDataset then mergeColumnsFail pr.snapshot pr.itemPath
          else mergeChildDatasetsFail pr.snapshot pr.itemPath
        pending := st.pending.eraseIdx n }
    | none => st

def runSelection (events : List SelEvent) : SelectionState :=
  events.foldl selStep initialSelection

/-- The paths of a selection, in order. -/
def selPaths (sel : List SelectedCatalogItem) : List String :=
  sel.map SelectedCatalogItem.path

/-- Look up a selected item by path. -/
def findByPath (sel : List SelectedCatalogItem) (p : String) :
    Option SelectedCatalogItem :=
  sel.find? fun i => i.path == p

/-- The uniqueness invariant: the selection holds no duplicate path, and
neither does any snapshot captured by an in-flight resolution (so a merge,
which replaces the selection with a mapped snapshot, cannot introduce one). -/
def SelectionInv (st : SelectionState) : Prop :=
  (selPaths st.selected).Nodup ∧ ∀ pr ∈ st.pending, (selPaths pr.snapshot).Nodup

/-! ### Context assembler: `buildDataContext` in `chat-sidebar.tsx` -/

structure ColumnWithNote where
  name : String
  type : String
  note : Option String
deriving DecidableEq

structure TableWithNotes where
  path : String
  columns : List ColumnWithNote
  description : Option String
  tags : Option (List String)
deriving DecidableEq

structure ContainerWithNotes where
  path : String
  type : String
  childDatasets : List TableWithNotes
deriving DecidableEq

structure DataContext where
  tables : List TableWithNotes
  containers : List ContainerWithNotes
  workspaceDescription : Option String
  workspaceName : Option String
deriving DecidableEq

/-- The `tables.push` literal for a `DATASET` selection item. -/
def datasetTable (item : SelectedCatalogItem) : TableWithNotes :=
  { path := item.path
    columns := item.columns.map fun col =>
      { name := col.name, type := col.type, note := none }
    description := none
    tags := none }

/-- The `containers.push` literal for a `CONTAINER` selection item
(`item.containerType || "CONTAINER"`; `item.childDatasets || []` is the
list itself here since the model's field is non-optional). -/
def containerContext (item : SelectedCatalogItem) : ContainerWithNotes :=
  { path := item.path
    type := item.containerType.getD "CONTAINER"
    childDatasets := item.childDatasets.map fun ds =>
      { path := ds.path
        columns := ds.columns.map fun col =>
          { name := col.name, type := col.type, note := none }
        description := none
        tags := none } }

/-- The `for (const item of selectedCatalogItems)` loop body: datasets are
pushed to `tables`, containers to `containers`, anything else is skipped. -/
def collectContext : List SelectedCatalogItem →
    List TableWithNotes × List ContainerWithNotes
  | [] => ([], [])
  | item :: rest =>
    let (ts, cs) := collectContext rest
    if item.type == "DATASET" then (datasetTable item :: ts, cs)
    else if item.type == "CONTAINER" then (ts, containerContext item :: cs)
    else (ts, cs)

/-- The no-workspace branch of `buildDataContext`: with zero selected items
the context is set to `undefined`, otherwise to the collected split. -/
def buildDataContextNoWorkspace (selectedCatalogItems : List SelectedCatalogItem) :
    Option DataContext :=
  if selectedCatalogItems.length == 0 then none
  else
    let (tables, containers) := collectContext selectedCatalogItems
    some { tables := tables, containers := containers,
           workspaceDescription := none, workspaceName := none }

/-- A per-column note of a table note (`cn.columnName`, `cn.description`). -/
structure ColumnNote where
  columnName : String
  description : Option String
deriving DecidableEq

/-- A table's note (`columnNotes`, `description`, `tags`). -/
structure TableNote where
  columnNotes : List ColumnNote
  description : Option String
  tags : Option (List String)
deriving DecidableEq

/-- A workspace-linked table with its optional note. -/
structure LinkedTable where
  tablePath : String
  tableNote : Option TableNote
deriving DecidableEq

/-- The workspace record fields used by `buildDataContext`
(`workspace?.name`, `workspace?.description`). -/
structure WorkspaceInfo where
  name : Option String
  description : Option String
deriving DecidableEq

/-- The `linkedData.linkedTables.map(lt => ...)` body: column types are not
stored in notes and are emitted as the empty string. -/
def linkedTableContext (lt : LinkedTable) : TableWithNotes :=
  { path := lt.tablePath
    columns :=
      (lt.tableNote.map fun tn =>
        tn.columnNotes.map fun cn =>
          ({ name := cn.columnName, type := "", note := cn.description } :
            ColumnWithNote)).getD []
    description := lt.tableNote.bind TableNote.description
    tags := lt.tableNote.bind TableNote.tags }

/-- The workspace branch of `buildDataContext`: with no linked tables the
context is set to `undefined`, otherwise to the mapped linked tables and no
containers. -/
def buildDataContextWorkspace (ws : WorkspaceInfo)
    (linkedTables : List LinkedTable) : Option DataContext :=
  if linkedTables.length == 0 then none
  else
    some { tables := linkedTables.map linkedTableContext
           containers := []
           workspaceDescription := ws.description
           workspaceName := ws.name }

/-- `buildDataContext`: the workspace branch runs when a workspace is
active (`activeWorkspaceId` non-null, with its fetched linked tables as
input), the catalog-selection branch otherwise. -/
def buildDataContext (activeWorkspace : Option (WorkspaceInfo × List LinkedTable))
    (selectedCatalogItems : List SelectedCatalogItem) : Option DataContext :=
  match activeWorkspace with
  | some wlt => buildDataContextWorkspace wlt.1 wlt.2
  | none => buildDataContextNoWorkspace selectedCatalogItems

/-! ### Concrete fixtures used by counterexample and witness theorems -/

/-- A dataset node `space.tbl`. -/
def sampleDatasetNode : CatalogItem :=
  CatalogItem.mk "ds1" ["space", "tbl"] "DATASET" none (some "VIRTUAL")
    (some []) none false false

/-- A container node `source1`. -/
def sampleContainerNode : CatalogItem :=
  CatalogItem.mk "src1" ["source1"] "CONTAINER" (some "SOURCE") none
    (some []) none false false

/-- An `int` field named `a`. -/
def intFieldA : DatasetField :=
  { name := "a", type := { name := "int", precision := none, scale := none } }

/-- The race of claim C1: toggle the dataset on (dispatching its column
fetch), toggle it off before the fetch resolves, then let the fetch
resolve successfully. -/
def staleTrace : List SelEvent :=
  [SelEvent.toggle sampleDatasetNode,
   SelEvent.toggle sampleDatasetNode,
   SelEvent.resolveOk 0 [intFieldA] []]

/-- The same prefix without the stale resolution: the item is removed. -/
def removalTrace : List SelEvent :=
  [SelEvent.toggle sampleDatasetNode, SelEvent.toggle sampleDatasetNode]

def q1Result : QueryResultShape :=
  { jobId := "job1", rowCount := 1, error := none }

def q2Result : QueryResultShape :=
  { jobId := "job2", rowCount := 2, error := none }

/-- The race of claim C2: Q1 submitted, Q2 submitted while Q1 is in flight,
Q2's response applies, then Q1's delayed response applies. -/
def supersessionTrace : List EditorEvent :=
  [EditorEvent.start, EditorEvent.start,
   EditorEvent.complete q2Result, EditorEvent.complete q1Result]

/-- A node already `Loaded`. -/
def loadedNode : CatalogItem :=
  CatalogItem.mk "n1" ["s"] "CONTAINER" (some "SPACE") none (some []) none
    false true

/-- A fresh node, neither loaded nor loading. -/
def freshNode : CatalogItem :=
  CatalogItem.mk "n2" ["t"] "CONTAINER" (some "SPACE") none (some []) none
    false false

/-- A two-branch tree: node `a` with child `a1`, and sibling `b`. -/
def sampleTree : List CatalogItem :=
  [CatalogItem.mk "a" ["a"] "CONTAINER" (some "SOURCE") none
    (some [CatalogItem.mk "a1" ["a", "x"] "DATASET" none none (some []) none
      false false])
    none false true,
   CatalogItem.mk "b" ["b"] "CONTAINER" (some "SPACE") none (some []) none
    false false]

/-- The selection of claim C8's concrete instance: one dataset whose columns
are `[{a,int},{b,string}]`. -/
def exampleSelectedDataset : SelectedCatalogItem :=
  { id := "ds1", path := "space.tbl", type := "DATASET"
    containerType := none, datasetType := some "VIRTUAL"
    columns := [{ name := "a", type := "int" }, { name := "b", type := "string" }]
    columnsLoaded := true, columnsLoading := false
    childDatasets := [], childDatasetsLoaded := false, childDatasetsLoading := false }

/-- The context claim C8 requires for that selection. -/
def exampleDataContext : DataContext :=
  { tables := [{ path := "space.tbl"
                 columns := [{ name := "a", type := "int", note := none },
                             { name := "b", type := "string", note := none }]
                 description := none, tags := none }]
    containers := []
    workspaceDescription := none, workspaceName := none }

/-- A toggle trace for the claim C4 witness. -/
def uniqTrace : List SelEvent :=
  [SelEvent.toggle sampleDatasetNode, SelEvent.toggle sampleContainerNode,
   SelEvent.toggle sampleDatasetNode, SelEvent.resolveFail 1,
   SelEvent.clear, SelEvent.toggle sampleContainerNode]

/-- A selection state in which `space.tbl` is selected. -/
def toggledOnState : SelectionState :=
  { selected := [newSelectedItem sampleDatasetNode], pending := [] }

/-! ## Theorems -/

/-- Helper: while every consulted status is non-terminal, the loop runs until
`attempts` reaches `maxAttempts` and then times out, having issued exactly
`maxAttempts` status calls. -/
theorem pollLoop_timedOut (status : Nat → String)
    (h : ∀ n, n < maxAttempts → isNonTerminal (status n) = true) :
    ∀ r a : Nat, a + r = maxAttempts → ∀ s, isNonTerminal s = true →
      pollLoop status s a r = PollOutcome.timedOut maxAttempts := by
  intro r
  induction r with
  | zero =>
    intro a ha s hs
    rw [pollLoop.eq_def]
    have h60 : maxAttempts ≤ a := by omega
    simp [hs, h60]
    omega
  | succ r ih =>
    intro a ha s hs
    rw [pollLoop.eq_def]
    have hlt : ¬ maxAttempts ≤ a := by omega
    simp [hs, hlt]
    exact ih (a + 1) (by omega) (status a) (h a (by omega))

/-- Claim C3: for a job whose status polls always return a non-terminal
remote state (RUNNING, STARTING or ENQUEUED), the route reaches the timeout
outcome after the fixed ceiling of `maxAttempts = 60` poll attempts — the
recorded status-call count is exactly 60, so no further status calls are
issued — and the route surfaces the 408 timeout error. -/
theorem poll_timeout_after_sixty_attempts (status : Nat → String)
    (h : ∀ n, n < maxAttempts → isNonTerminal (status n) = true) :
    pollDremio status = PollOutcome.timedOut maxAttempts ∧
    sqlRoutePoll status = RouteOutcome.timeout408 := by
  have hp : pollDremio status = PollOutcome.timedOut maxAttempts := by
    rw [pollDremio]
    exact pollLoop_timedOut status h maxAttempts 0 (Nat.zero_add maxAttempts)
      "RUNNING" rfl
  exact ⟨hp, by rw [sqlRoutePoll, hp]⟩

/-- Witness for claim C3 at the constant RUNNING status oracle. -/
theorem poll_timeout_after_sixty_attempts_witness :
    pollDremio (fun _ => "RUNNING") = PollOutcome.timedOut maxAttempts ∧
    sqlRoutePoll (fun _ => "RUNNING") = RouteOutcome.timeout408 :=
  poll_timeout_after_sixty_attempts (fun _ => "RUNNING") (fun _ _ => rfl)

/-- Claim C9: once the poll loop exits, any job state other than the three
non-terminal ones and other than FAILED/CANCELED — in particular any
unrecognized value — is treated as success: the route proceeds to fetch the
first results page (`offset=0`, `limit=500`) and returns it without error. -/
theorem unrecognized_jobState_success (status : Nat → String)
    (h0 : isNonTerminal (status 0) = false)
    (hf : status 0 ≠ "FAILED") (hc : status 0 ≠ "CANCELED") :
    pollDremio status = PollOutcome.terminal (status 0) 1 ∧
    sqlRoutePoll status = RouteOutcome.results 0 500 := by
  have hp : pollDremio status = PollOutcome.terminal (status 0) 1 := by
    rw [pollDremio]
    rw [pollLoop.eq_def]
    simp only [isNonTerminal, maxAttempts]
    norm_num
    rw [pollLoop.eq_def]
    simp [h0]
  refine ⟨hp, ?_⟩
  rw [sqlRoutePoll, hp]
  simp [dispatchTerminal, hf, hc]

/-- Witness for claim C9 at an unrecognized job state. -/
theorem unrecognized_jobState_success_witness :
    pollDremio (fun _ => "UNKNOWN_STATE") = PollOutcome.terminal "UNKNOWN_STATE" 1 ∧
    sqlRoutePoll (fun _ => "UNKNOWN_STATE") = RouteOutcome.results 0 500 :=
  unrecognized_jobState_success (fun _ => "UNKNOWN_STATE") rfl
    (by decide) (by decide)

/-- Claim C2, evaluated at the failing interleaving: `executeQuery` has no
generation token, and the Ctrl/Cmd+Enter handler invokes it while a query is
already executing; when Q2 is submitted while Q1 is in flight and Q1's
response arrives after Q2's, Q1's completion overwrites Q2's displayed
result, so the final displayed result is Q1's, not Q2's. -/
theorem stale_query_completion_overwrites_newer :
    (runEditor supersessionTrace).result = some q1Result ∧
    (runEditor supersessionTrace).result ≠ some q2Result := by
  exact ⟨rfl, by decide⟩

/-- Claim C1, evaluated at the failing trace: toggling the dataset off does
remove it synchronously, but when the still-pending column fetch resolves,
the merge maps the `newItems` snapshot captured at dispatch and hands the
whole mapped array to `onSelectionChange`, which replaces the selection —
so the deselected path is back in the selection set. -/
theorem stale_resolution_resurrects_deselected :
    (runSelection removalTrace).selected = [] ∧
    pathSelected (runSelection staleTrace).selected "space.tbl" = true := by
  exact ⟨rfl, rfl⟩

/-- Helper: a completed `loadChildren` update leaves the node `Loaded`. -/
theorem applyUpdates_childrenLoaded_isLoaded (x : CatalogItem)
    (cs : List CatalogItem) :
    (applyUpdates x (childrenLoadedUpdate cs)).isLoaded = true := by
  cases x
  rfl

/-- Claim C6: expanding a node that is already `Loaded` (or currently
`Loading`) issues no fetch and returns the catalog unchanged; a fresh node's
first expand does issue the fetch, and once its completion update has been
applied the node never triggers a second one — so expanding the same node
twice performs exactly one children fetch. -/
theorem expand_idempotent (catalog : List CatalogItem) (item fresh : CatalogItem)
    (e : Bool) (h : item.isLoaded = true ∨ item.isLoading = true)
    (hf1 : fresh.isLoaded = false) (hf2 : fresh.isLoading = false) :
    handleToggle catalog item e = (catalog, false) ∧
    (handleToggle catalog fresh false).2 = true ∧
    ∀ (cs c2 : List CatalogItem) (e2 : Bool),
      handleToggle c2 (applyUpdates fresh (childrenLoadedUpdate cs)) e2
        = (c2, false) := by
  refine ⟨?_, ?_, ?_⟩
  · rcases h with h | h <;> simp [handleToggle, h]
  · simp [handleToggle, hf1, hf2]
  · intro cs c2 e2
    simp [handleToggle, applyUpdates_childrenLoaded_isLoaded]

/-- Witness for claim C6 on concrete loaded and fresh nodes. -/
theorem expand_idempotent_witness :
    handleToggle [] loadedNode true = ([], false) ∧
    (handleToggle [] freshNode false).2 = true ∧
    handleToggle [] (applyUpdates freshNode (childrenLoadedUpdate [])) false
      = ([], false) :=
  ⟨(expand_idempotent [] loadedNode freshNode true (Or.inl rfl) rfl rfl).1,
   (expand_idempotent [] loadedNode freshNode true (Or.inl rfl) rfl rfl).2.1,
   (expand_idempotent [] loadedNode freshNode true (Or.inl rfl) rfl rfl).2.2
     [] [] false⟩

mutual

/-- Helper: when the id occurs nowhere in the item's subtree, the rewrite of
that item is the identity. -/
theorem updateItemOne_not_contains (id : String) (u : ItemUpdates) :
    ∀ x : CatalogItem, itemContainsId id x = false → updateItemOne id u x = x
  | CatalogItem.mk i p t ct dt none fs lg ld, h => by
    simp only [itemContainsId, beq_eq_false_iff_ne] at h
    simp [updateItemOne, h]
  | CatalogItem.mk i p t ct dt (some cs) fs lg ld, h => by
    simp only [itemContainsId, Bool.or_eq_false_iff, beq_eq_false_iff_ne] at h
    simp [updateItemOne, h.1, updateItemInTree_not_contains id u cs h.2]

/-- Helper: when the id occurs nowhere in the forest, `updateItemInTree` is
the identity. -/
theorem updateItemInTree_not_contains (id : String) (u : ItemUpdates) :
    ∀ items : List CatalogItem, treeContainsId id items = false →
      updateItemInTree items id u = items
  | [], _ => rfl
  | x :: xs, h => by
    simp only [treeContainsId, Bool.or_eq_false_iff] at h
    simp [updateItemInTree, updateItemOne_not_contains id u x h.1,
      updateItemInTree_not_contains id u xs h.2]

end

/-- Helper: the rewrite never changes a node's `id`. -/
theorem updateItemOne_id (id : String) (u : ItemUpdates) (x : CatalogItem) :
    (updateItemOne id u x).id = x.id := by
  cases x with
  | mk i p t ct dt ch fs lg ld =>
    cases ch <;> simp only [updateItemOne] <;> split <;> rfl

/-- Helper: a node whose own `id` differs keeps all content other than its
(possibly deeper-rewritten) children. -/
theorem updateItemOne_frame (id : String) (u : ItemUpdates) (x : CatalogItem)
    (hne : x.id ≠ id) :
    (updateItemOne id u x).path = x.path ∧
    (updateItemOne id u x).type = x.type ∧
    (updateItemOne id u x).fields = x.fields ∧
    (updateItemOne id u x).isLoading = x.isLoading ∧
    (updateItemOne id u x).isLoaded = x.isLoaded := by
  cases x with
  | mk i p t ct dt ch fs lg ld =>
    have hbe : (i == id) = false := beq_eq_false_iff_ne.mpr hne
    cases ch <;>
      simp [updateItemOne, hbe, CatalogItem.path, CatalogItem.type,
        CatalogItem.fields, CatalogItem.isLoading, CatalogItem.isLoaded]

/-- Claim C7: the copy-on-write tree update is a frame operation — if no
node in the tree carries the id, the rewrite returns the tree unchanged
(silent no-op); any subtree not containing the id is returned as-is; the
rewrite never changes a node's id; and a node whose id does not match keeps
its path, type, fields and load flags (only its children can be rewritten
deeper on the path to the target). -/
theorem updateItemInTree_frame (items : List CatalogItem) (id : String)
    (u : ItemUpdates) :
    (treeContainsId id items = false → updateItemInTree items id u = items) ∧
    (∀ x : CatalogItem, itemContainsId id x = false → updateItemOne id u x = x) ∧
    (∀ x : CatalogItem, (updateItemOne id u x).id = x.id) ∧
    (∀ x : CatalogItem, x.id ≠ id →
      (updateItemOne id u x).path = x.path ∧
      (updateItemOne id u x).type = x.type ∧
      (updateItemOne id u x).fields = x.fields ∧
      (updateItemOne id u x).isLoading = x.isLoading ∧
      (updateItemOne id u x).isLoaded = x.isLoaded) :=
  ⟨updateItemInTree_not_contains id u items,
   updateItemOne_not_contains id u,
   updateItemOne_id id u,
   fun x hx => updateItemOne_frame id u x hx⟩

/-- Witness for claim C7: updating an absent id leaves the sample tree (with
its nested child) untouched, and a non-matching node keeps its content. -/
theorem updateItemInTree_frame_witness :
    updateItemInTree sampleTree "zz" loadingUpdate = sampleTree ∧
    updateItemOne "zz" loadingUpdate loadedNode = loadedNode ∧
    (updateItemOne "zz" loadingUpdate loadedNode).id = loadedNode.id ∧
    (updateItemOne "zz" loadingUpdate loadedNode).path = loadedNode.path :=
  ⟨(updateItemInTree_frame sampleTree "zz" loadingUpdate).1 rfl,
   (updateItemInTree_frame sampleTree "zz" loadingUpdate).2.1 loadedNode rfl,
   (updateItemInTree_frame sampleTree "zz" loadingUpdate).2.2.1 loadedNode,
   ((updateItemInTree_frame sampleTree "zz" loadingUpdate).2.2.2 loadedNode
     (by decide)).1⟩

/-- Helper: mapping a path-preserving function over a selection leaves its
path list unchanged. -/
theorem selPaths_map_preserving (s : List SelectedCatalogItem)
    (f : SelectedCatalogItem → SelectedCatalogItem)
    (hf : ∀ i, (f i).path = i.path) : selPaths (s.map f) = selPaths s := by
  induction s with
  | nil => rfl
  | cons x xs ih =>
    simp only [List.map_cons, selPaths] at ih ⊢
    rw [hf x, ih]

/-- Helper: the per-item branch of every completion merge preserves `path`. -/
theorem path_ite (p : String) (g : SelectedCatalogItem → SelectedCatalogItem)
    (hg : ∀ i, (g i).path = i.path) (i : SelectedCatalogItem) :
    (if i.path == p then g i else i).path = i.path := by
  split
  · exact hg i
  · rfl

theorem selPaths_mergeColumnsOk (s : List SelectedCatalogItem) (p : String)
    (c : List SelectedColumn) : selPaths (mergeColumnsOk s p c) = selPaths s := by
  simp only [mergeColumnsOk]
  exact selPaths_map_preserving s _ (path_ite p _ fun i => rfl)

theorem selPaths_mergeColumnsFail (s : List SelectedCatalogItem) (p : String) :
    selPaths (mergeColumnsFail s p) = selPaths s := by
  simp only [mergeColumnsFail]
  exact selPaths_map_preserving s _ (path_ite p _ fun i => rfl)

theorem selPaths_mergeChildDatasetsOk (s : List SelectedCatalogItem) (p : String)
    (c : List ChildDataset) : selPaths (mergeChildDatasetsOk s p c) = selPaths s := by
  simp only [mergeChildDatasetsOk]
  exact selPaths_map_preserving s _ (path_ite p _ fun i => rfl)

theorem selPaths_mergeChildDatasetsFail (s : List SelectedCatalogItem) (p : String) :
    selPaths (mergeChildDatasetsFail s p) = selPaths s := by
  simp only [mergeChildDatasetsFail]
  exact selPaths_map_preserving s _ (path_ite p _ fun i => rfl)

/-- Helper: a path that is not selected matches no selected item. -/
theorem pathSelected_false_forall {sel : List SelectedCatalogItem} {p : String}
    (h : pathSelected sel p = false) : ∀ i ∈ sel, (i.path == p) = false := by
  rw [pathSelected, List.any_eq_false] at h
  intro i hi
  simpa using h i hi

/-- Helper: a path that is not selected is absent from the path list. -/
theorem not_mem_selPaths {sel : List SelectedCatalogItem} {p : String}
    (h : pathSelected sel p = false) : p ∉ selPaths sel := by
  intro hmem
  rw [selPaths, List.mem_map] at hmem
  obtain ⟨i, hi, hpi⟩ := hmem
  have hfalse := pathSelected_false_forall h i hi
  simp [hpi] at hfalse

/-- Helper: one toggle preserves the uniqueness invariant. -/
theorem handleToggleSelection_inv (st : SelectionState) (item : CatalogItem)
    (h : SelectionInv st) : SelectionInv (handleToggleSelection st item) := by
  obtain ⟨h1, h2⟩ := h
  by_cases hp : pathSelected st.selected (pathJoin item.path) = true
  · simp only [handleToggleSelection, hp, if_true]
    exact ⟨h1.sublist ((List.filter_sublist _).map _), h2⟩
  · have hp' : pathSelected st.selected (pathJoin item.path) = false := by
      revert hp
      cases pathSelected st.selected (pathJoin item.path) <;> simp
    have hnodup : (selPaths (st.selected ++ [newSelectedItem item])).Nodup := by
      rw [selPaths, List.map_append]
      refine List.Nodup.append h1 (by simp) ?_
      exact List.disjoint_singleton.mpr (not_mem_selPaths hp')
    simp only [handleToggleSelection, hp', Bool.false_eq_true, if_false]
    split
    · refine ⟨hnodup, ?_⟩
      intro pr hpr
      rcases List.mem_append.mp hpr with hin | hin
      · exact h2 pr hin
      · rw [List.mem_singleton] at hin
        subst hin
        exact hnodup
    · exact ⟨hnodup, h2⟩

/-- Helper: every event preserves the uniqueness invariant. -/
theorem selStep_inv (st : SelectionState) (e : SelEvent) (h : SelectionInv st) :
    SelectionInv (selStep st e) := by
  obtain ⟨h1, h2⟩ := h
  have hpend : ∀ (n : Nat) (pr : PendingResolution), st.pending[n]? = some pr →
      pr ∈ st.pending := by
    intro n pr hpr
    rw [List.getElem?_eq_some] at hpr
    obtain ⟨hn, he⟩ := hpr
    exact he ▸ List.getElem_mem hn
  cases e with
  | toggle item => exact handleToggleSelection_inv st item ⟨h1, h2⟩
  | clear => exact ⟨by simp [selStep, selPaths], h2⟩
  | resolveOk n fields cds =>
    simp only [selStep]
    cases hpr : st.pending[n]? with
    | none => exact ⟨h1, h2⟩
    | some pr =>
      have hsnap := h2 pr (hpend n pr hpr)
      refine ⟨?_, ?_⟩
      · by_cases hd : pr.isDataset = true
        · simp only [hd, if_true]
          rw [selPaths_mergeColumnsOk]
          exact hsnap
        · have hd' : pr.isDataset = false := by
            revert hd
            cases pr.isDataset <;> simp
          simp only [hd', Bool.false_eq_true, if_false]
          rw [selPaths_mergeChildDatasetsOk]
          exact hsnap
      · intro pr' hpr'
        exact h2 pr' ((List.eraseIdx_sublist st.pending n).subset hpr')
  | resolveFail n =>
    simp only [selStep]
    cases hpr : st.pending[n]? with
    | none => exact ⟨h1, h2⟩
    | some pr =>
      have hsnap := h2 pr (hpend n pr hpr)
      refine ⟨?_, ?_⟩
      · by_cases hd : pr.isDataset = true
        · simp only [hd, if_true]
          rw [selPaths_mergeColumnsFail]
          exact hsnap
        · have hd' : pr.isDataset = false := by
            revert hd
            cases pr.isDataset <;> simp
          simp only [hd', Bool.false_eq_true, if_false]
          rw [selPaths_mergeChildDatasetsFail]
          exact hsnap
      · intro pr' hpr'
        exact h2 pr' ((List.eraseIdx_sublist st.pending n).subset hpr')

/-- Helper: the invariant is preserved along any event sequence. -/
theorem foldl_selStep_inv (events : List SelEvent) :
    ∀ st : SelectionState, SelectionInv st →
      SelectionInv (events.foldl selStep st) := by
  induction events with
  | nil => intro st h; exact h
  | cons e es ih => intro st h; exact ih _ (selStep_inv st e h)

/-- Helper: every reachable selection state satisfies the invariant. -/
theorem runSelection_inv (events : List SelEvent) :
    SelectionInv (runSelection events) :=
  foldl_selStep_inv events initialSelection
    ⟨by simp [selPaths, initialSelection], by intro pr hpr; cases hpr⟩

/-- Claim C4: along every event sequence from the empty selection the
selection set never holds two entries with the same path, and toggling an
already-selected path filters it out of the selection instead of adding a
second entry. -/
theorem selection_uniqueness (events : List SelEvent) :
    (selPaths (runSelection events).selected).Nodup ∧
    ∀ (st : SelectionState) (item : CatalogItem),
      pathSelected st.selected (pathJoin item.path) = true →
      (handleToggleSelection st item).selected
        = st.selected.filter fun i => !(i.path == pathJoin item.path) := by
  refine ⟨(runSelection_inv events).1, ?_⟩
  intro st item hp
  simp only [handleToggleSelection, hp, if_true]

/-- Witness for claim C4 on a concrete trace and a concrete toggle-off. -/
theorem selection_uniqueness_witness :
    (selPaths (runSelection uniqTrace).selected).Nodup ∧
    (handleToggleSelection toggledOnState sampleDatasetNode).selected
      = toggledOnState.selected.filter
          fun i => !(i.path == pathJoin sampleDatasetNode.path) :=
  ⟨(selection_uniqueness uniqTrace).1,
   (selection_uniqueness uniqTrace).2 toggledOnState sampleDatasetNode
     (by decide)⟩

/-- Helper: looking up the freshly appended item through a merge that only
rewrites the matching path finds exactly its rewritten form. -/
theorem findByPath_map_ite_append (p : String)
    (g : SelectedCatalogItem → SelectedCatalogItem)
    (hg : ∀ i, (g i).path = i.path)
    (ni : SelectedCatalogItem) (hni : (ni.path == p) = true) :
    ∀ s : List SelectedCatalogItem, (∀ i ∈ s, (i.path == p) = false) →
      findByPath ((s ++ [ni]).map fun i => if i.path == p then g i else i) p
        = some (g ni)
  | [], _ => by
    simp only [List.nil_append, List.map_cons, List.map_nil, findByPath]
    rw [if_pos hni]
    exact List.find?_cons_of_pos _
      (show ((g ni).path == p) = true by rw [hg ni]; exact hni)
  | x :: xs, hs => by
    have hx := hs x (List.mem_cons_self x xs)
    simp only [List.cons_append, List.map_cons, findByPath] at *
    rw [List.find?_cons_of_neg]
    · exact findByPath_map_ite_append p g hg ni hni xs
        fun i hi => hs i (List.mem_cons_of_mem x hi)
    · simp [hx]

/-- Claim C5: when a freshly toggled item's asynchronous resolution fails
(or returns no data), the merge the continuation applies to its captured
snapshot still marks the item loaded with empty data — the dataset branch
yields `columnsLoaded = true`, `columnsLoading = false` with the columns
still `[]`, and the container branch yields `childDatasetsLoaded = true`,
`childDatasetsLoading = false` with `childDatasets` still `[]` — instead of
leaving it permanently loading.  The first conjunct pins down the snapshot
the toggle dispatches. -/
theorem fail_soft_resolution (st : SelectionState) (item : CatalogItem)
    (hsel : pathSelected st.selected (pathJoin item.path) = false)
    (hkind : (item.type == "DATASET" || item.type == "CONTAINER") = true) :
    (handleToggleSelection st item).pending
      = st.pending ++ [{ itemPath := pathJoin item.path
                         isDataset := item.type == "DATASET"
                         snapshot := st.selected ++ [newSelectedItem item] }] ∧
    findByPath (mergeColumnsFail (st.selected ++ [newSelectedItem item])
        (pathJoin item.path)) (pathJoin item.path)
      = some { newSelectedItem item with
               columnsLoaded := true, columnsLoading := false } ∧
    findByPath (mergeChildDatasetsFail (st.selected ++ [newSelectedItem item])
        (pathJoin item.path)) (pathJoin item.path)
      = some { newSelectedItem item with
               childDatasetsLoaded := true, childDatasetsLoading := false } ∧
    (newSelectedItem item).columns = [] ∧
    (newSelectedItem item).childDatasets = [] := by
  have hs := pathSelected_false_forall hsel
  refine ⟨?_, ?_, ?_, rfl, rfl⟩
  · simp only [handleToggleSelection, hsel, Bool.false_eq_true, if_false,
      hkind, if_true]
  · simp only [mergeColumnsFail]
    exact findByPath_map_ite_append (pathJoin item.path)
      (fun i => { i with columnsLoaded := true, columnsLoading := false })
      (fun i => rfl) (newSelectedItem item) (beq_self_eq_true _) st.selected hs
  · simp only [mergeChildDatasetsFail]
    exact findByPath_map_ite_append (pathJoin item.path)
      (fun i => { i with childDatasetsLoaded := true, childDatasetsLoading := false })
      (fun i => rfl) (newSelectedItem item) (beq_self_eq_true _) st.selected hs

/-- Witness for claim C5 on a concrete container toggled from the empty
selection. -/
theorem fail_soft_resolution_witness :
    (handleToggleSelection initialSelection sampleContainerNode).pending
      = initialSelection.pending ++
        [{ itemPath := pathJoin sampleContainerNode.path
           isDataset := sampleContainerNode.type == "DATASET"
           snapshot := initialSelection.selected
             ++ [newSelectedItem sampleContainerNode] }] ∧
    findByPath (mergeColumnsFail (initialSelection.selected
        ++ [newSelectedItem sampleContainerNode])
        (pathJoin sampleContainerNode.path)) (pathJoin sampleContainerNode.path)
      = some { newSelectedItem sampleContainerNode with
               columnsLoaded := true, columnsLoading := false } ∧
    findByPath (mergeChildDatasetsFail (initialSelection.selected
        ++ [newSelectedItem sampleContainerNode])
        (pathJoin sampleContainerNode.path)) (pathJoin sampleContainerNode.path)
      = some { newSelectedItem sampleContainerNode with
               childDatasetsLoaded := true, childDatasetsLoading := false } ∧
    (newSelectedItem sampleContainerNode).columns = [] ∧
    (newSelectedItem sampleContainerNode).childDatasets = [] :=
  fail_soft_resolution initialSelection sampleContainerNode rfl (by decide)

/-- Helper: the assembler loop is exactly a split of the selection by kind. -/
theorem collectContext_split (items : List SelectedCatalogItem) :
    collectContext items
      = ((items.filter fun i => i.type == "DATASET").map datasetTable,
         (items.filter fun i => i.type == "CONTAINER").map containerContext) := by
  induction items with
  | nil => rfl
  | cons item rest ih =>
    rw [collectContext, ih]
    by_cases hd : item.type = "DATASET"
    · simp [List.filter_cons, hd]
    · by_cases hc : item.type = "CONTAINER" <;>
        simp [List.filter_cons, hd, hc]

/-- Claim C8: the assembler splits the selection by kind — datasets become
table contexts carrying their path and resolved columns, containers become
container contexts carrying their child datasets — and on the selection of
exactly one dataset with columns `[{a,int},{b,string}]` it produces
`{tables := [{path, columns := [{a,int},{b,string}]}], containers := []}`. -/
theorem context_derivation (items : List SelectedCatalogItem) :
    (collectContext items).1
      = (items.filter fun i => i.type == "DATASET").map datasetTable ∧
    (collectContext items).2
      = (items.filter fun i => i.type == "CONTAINER").map containerContext ∧
    buildDataContextNoWorkspace [exampleSelectedDataset] = some exampleDataContext := by
  refine ⟨?_, ?_, rfl⟩
  · rw [collectContext_split]
  · rw [collectContext_split]

/-- Claim C10: with no active workspace and an empty selection the produced
data context is `undefined` (`none`), not an empty context; likewise an
active workspace with no linked tables yields `undefined`. -/
theorem empty_context_undefined :
    buildDataContext none [] = none ∧
    ∀ (ws : WorkspaceInfo) (items : List SelectedCatalogItem),
      buildDataContext (some (ws, [])) items = none := by
  exact ⟨rfl, fun ws items => rfl⟩

end EP
